import Mathlib

/-!
A shallow embedding of `src/utils/a11-helpers.ts` (keyboard-accessibility
test helpers built on a browser-automation API) and proofs about it.

JavaScript strings are modelled as Lean `String`; the JS string operations
used by the source (`slice`, `substring`, `split(" ")`, `trim`,
`toLowerCase`, `.length`) are given explicit character-list definitions so
that every definition evaluates by kernel reduction.  DOM elements are
records of the fields the source reads: `tagName`, attributes
(`getAttribute`), and `textContent`; a document is the active element plus
an id table (`getElementById`).  Browser effects are made explicit: the
focus-inspection snapshot is a `Document` value, `assertElementFocused`
additionally records the operations it performs as an event trace, and the
page driven by `tabToElement` is a function from the number of Tab presses
so far to the document state, plus a predicate saying whether the target
locator is attached at each step.
-/

/-- Decidable equality of `Except` outcomes, for evaluating the model on
concrete inputs. -/
instance {ε α : Type} [DecidableEq ε] [DecidableEq α] : DecidableEq (Except ε α) := fun x y =>
  match x, y with
  | Except.ok a, Except.ok b =>
    if h : a = b then isTrue (by rw [h]) else isFalse (fun hc => h (Except.ok.inj hc))
  | Except.ok _, Except.error _ => isFalse (fun hc => Except.noConfusion hc)
  | Except.error _, Except.ok _ => isFalse (fun hc => Except.noConfusion hc)
  | Except.error d, Except.error e =>
    if h : d = e then isTrue (by rw [h]) else isFalse (fun hc => h (Except.error.inj hc))

/-- JS `String.prototype.slice(n)`: the characters from index `n` to the end. -/
def jsSliceFrom (s : String) (n : Nat) : String :=
  String.mk (s.data.drop n)

/-- JS `String.prototype.substring(0, n)`: the first `n` characters. -/
def jsSubstringTo (s : String) (n : Nat) : String :=
  String.mk (s.data.take n)

/-- JS `String.prototype.toLowerCase`, character by character. -/
def jsToLower (s : String) : String :=
  String.mk (s.data.map Char.toLower)

/-- JS `String.prototype.trim`: strip whitespace from both ends. -/
def jsTrim (s : String) : String :=
  String.mk (((s.data.dropWhile Char.isWhitespace).reverse.dropWhile Char.isWhitespace).reverse)

/-- Helper for `jsSplitSpace`: split a character list at each space. -/
def splitSpaceAux : List Char → List Char → List String
  | [], acc => [String.mk acc.reverse]
  | c :: cs, acc =>
    if c = ' ' then String.mk acc.reverse :: splitSpaceAux cs []
    else splitSpaceAux cs (c :: acc)

/-- JS `String.prototype.split(" ")`: split at every single space
(`"".split(" ")` is `[""]`, and adjacent spaces yield empty fragments). -/
def jsSplitSpace (s : String) : List String :=
  splitSpaceAux s.data []

/-- JS `Array.prototype.join(" ")`. -/
def joinSpace : List String → String
  | [] => ""
  | [s] => s
  | s :: rest => s ++ " " ++ joinSpace rest

/-- JS truthiness of a string-or-null value (`null` and `""` are falsy). -/
def truthy : Option String → Bool
  | none => false
  | some s => !(s == "")

/-- JS `a || b` where `a` is a string-or-null and `b` a string:
the value of `a` when truthy, else `b`. -/
def jsOr (a : Option String) (b : String) : String :=
  match a with
  | some s => if s == "" then b else s
  | none => b

/-- JS `a || b` on two plain strings. -/
def jsOrS (a b : String) : String :=
  if a == "" then b else a

/-- A DOM element, restricted to the fields the source reads:
`tagName`, the attribute map backing `getAttribute`, and `textContent`. -/
structure Element where
  tagName : String
  attrs : List (String × String)
  textContent : Option String
deriving DecidableEq

/-- DOM `Element.getAttribute`: the attribute's value, or null when absent. -/
def getAttribute (el : Element) (attrName : String) : Option String :=
  (el.attrs.find? (fun p => p.1 == attrName)).map (fun p => p.2)

/-- A document: the currently focused element (`document.activeElement`,
null when nothing is focused) and the id table backing `getElementById`. -/
structure Document where
  activeElement : Option Element
  elemsById : List (String × Element)
deriving DecidableEq

/-- DOM `document.getElementById`. -/
def getElementById (doc : Document) (idStr : String) : Option Element :=
  (doc.elemsById.find? (fun p => p.1 == idStr)).map (fun p => p.2)

/-- The `tagRoleMap` record of `getComputedAriaRole`
(src/utils/a11-helpers.ts lines 99-114), as a key-value list. -/
def tagRoleMap : List (String × String) :=
  [("a", "link"),
   ("button", "button"),
   ("input", "textbox"),
   ("textarea", "textbox"),
   ("select", "combobox"),
   ("header", "banner"),
   ("footer", "contentinfo"),
   ("main", "main"),
   ("nav", "navigation"),
   ("section", "region"),
   ("table", "table"),
   ("tr", "row"),
   ("td", "cell"),
   ("th", "columnheader")]

/-- JS record access `tagRoleMap[tag]`: the mapped role, or undefined. -/
def lookupTagRole (tag : String) : Option String :=
  (tagRoleMap.find? (fun p => tag == p.1)).map (fun p => p.2)

/-- `getComputedAriaRole` (src/utils/a11-helpers.ts lines 90-117): a null
element has "No role"; an explicitly set truthy `role` attribute wins;
otherwise the lowercased tag name is looked up in `tagRoleMap`, defaulting
to "No role". -/
def getComputedAriaRole : Option Element → String
  | none => "No role"
  | some el =>
    let role : Option String := getAttribute el "role"
    if truthy role then role.getD ""
    else jsOr (lookupTagRole (jsToLower el.tagName)) "No role"

/-- The `aria-labelledby` branch of the accessible-name computation
(src/utils/a11-helpers.ts lines 128-137): split the attribute at spaces,
resolve each id (dropping unresolved ones, `filter(Boolean)`), trim each
referenced element's text content (dropping null and empty ones,
`filter(Boolean)` again), and join with single spaces. -/
def labelledByName (doc : Document) (labelledByIds : String) : String :=
  let labelledByElements : List Element :=
    (jsSplitSpace labelledByIds).filterMap (fun s => getElementById doc s)
  let texts : List String :=
    labelledByElements.filterMap (fun e =>
      match e.textContent.map jsTrim with
      | none => none
      | some t => if t == "" then none else some t)
  joinSpace texts

/-- The fallback chain of the accessible-name computation
(src/utils/a11-helpers.ts lines 139-145):
`aria-label || textContent?.trim() || title || placeholder || "No name"`. -/
def fallbackAccessibleName (el : Element) : String :=
  jsOr (getAttribute el "aria-label")
    (jsOr (el.textContent.map jsTrim)
      (jsOr (getAttribute el "title")
        (jsOr (getAttribute el "placeholder") "No name")))

/-- The accessible-name computation of `getFocusedElementInfo`
(src/utils/a11-helpers.ts lines 123-146): the `aria-labelledby` branch when
that attribute is truthy, else the fallback chain. -/
def computeAccessibleName (doc : Document) (el : Element) : String :=
  let labelledByIds : Option String := getAttribute el "aria-labelledby"
  if truthy labelledByIds then labelledByName doc (labelledByIds.getD "")
  else fallbackAccessibleName el

/-- The tag/role/name record returned by `getFocusedElementInfo`. -/
structure ElementInfo where
  tag : String
  role : String
  name : String
deriving DecidableEq

/-- `getFocusedElementInfo` (src/utils/a11-helpers.ts lines 85-153): null
when no element is focused, else the focused element's lowercased tag, its
computed ARIA role, and its computed accessible name. -/
def getFocusedElementInfo (doc : Document) : Option ElementInfo :=
  match doc.activeElement with
  | none => none
  | some el =>
    some { tag := jsToLower el.tagName,
           role := getComputedAriaRole (some el),
           name := computeAccessibleName doc el }

/-- `truncateText` (src/utils/a11-helpers.ts lines 157-160): a falsy input
becomes `""`; a string longer than `maxLength` becomes its first
`maxLength - 3` characters followed by `"..."`.  The source's default for
`maxLength` is 100; callers relying on the default are modelled by passing
100 explicitly. -/
def truncateText (text : Option String) (maxLength : Nat) : String :=
  if !(truthy text) then ""
  else
    let t : String := text.getD ""
    if t.length > maxLength then jsSubstringTo t (maxLength - 3) ++ "..." else t

/-- The inline `shortName` computation of `assertElementFocused`
(src/utils/a11-helpers.ts line 30):
`name.length > 100 ? name.slice(97) + "..." : name`. -/
def shortNameOf (name : String) : String :=
  if name.length > 100 then jsSliceFrom name 97 ++ "..." else name

/-- The expected-name argument: either a literal string or a regular
expression, the latter modelled by its source text (for interpolation
into error messages) and its match predicate. -/
inductive ExpectedName where
  | str (s : String)
  | regexp (source : String) (test : String → Bool)

/-- How a value interpolates into a template literal: the string itself,
or the regular expression's source form. -/
def ExpectedName.display : ExpectedName → String
  | .str s => s
  | .regexp source _ => source

/-- The name comparison of `assertElementFocused`
(src/utils/a11-helpers.ts lines 35-37): `expectedName instanceof RegExp ?
expectedName.test(focusedElementInfo?.name || "") :
focusedElementInfo?.name === expectedName`. -/
def nameMatches (expectedName : ExpectedName) (name : String) : Bool :=
  match expectedName with
  | .str s => name == s
  | .regexp _ t => t (jsOrS name "")

/-- The "not found on page" message of `assertElementFocused`
(src/utils/a11-helpers.ts line 20). -/
def notFoundMessage (expectedRole : String) (expectedName : ExpectedName) : String :=
  "Element with role \"" ++ expectedRole ++ "\" and name \"" ++ expectedName.display ++
    "\" not found on page."

/-- The mismatch message of `assertElementFocused`
(src/utils/a11-helpers.ts lines 43-46); as in the source, no closing quote
follows the short name. -/
def mismatchMessage (expectedRole : String) (expectedName : ExpectedName)
    (focusedRole shortName : String) : String :=
  "Expected element with role \"" ++ expectedRole ++ "\" and name \"" ++
    expectedName.display ++ "\" to be focused\n" ++
    "Actually focused element: role=\"" ++ focusedRole ++ "\", name=\"" ++ shortName

/-- The observable operations of `assertElementFocused`: the
`waitFor(state: attached)` call on the target locator, and the
`getFocusedElementInfo` page evaluation. -/
inductive AEvent where
  | waitForAttached
  | queryFocused
deriving DecidableEq

/-- `assertElementFocused` (src/utils/a11-helpers.ts lines 13-47).
`attached` says whether the target locator's `waitFor` succeeded within
its timeout; `doc` is the document snapshot the focus query would see.
Returns the outcome (`ok`, or the thrown error's message) paired with the
trace of operations performed. -/
def assertElementFocused (attached : Bool) (doc : Document)
    (expectedRole : String) (expectedName : ExpectedName) :
    Except String Unit × List AEvent :=
  if !attached then
    (Except.error (notFoundMessage expectedRole expectedName), [AEvent.waitForAttached])
  else
    match getFocusedElementInfo doc with
    | none => (Except.error "No focused element", [AEvent.waitForAttached, AEvent.queryFocused])
    | some focusedElementInfo =>
      let shortName : String := shortNameOf focusedElementInfo.name
      if focusedElementInfo.role == expectedRole &&
          nameMatches expectedName focusedElementInfo.name then
        (Except.ok (), [AEvent.waitForAttached, AEvent.queryFocused])
      else
        (Except.error (mismatchMessage expectedRole expectedName
            focusedElementInfo.role shortName),
         [AEvent.waitForAttached, AEvent.queryFocused])

/-- `WAIT_BETWEEN_TABS_MS` (src/utils/a11-helpers.ts line 4). -/
def WAIT_BETWEEN_TABS_MS : Nat := 200

/-- `JSON.stringify` of a tag/role/name record, up to and including the
opening quote of the name value (string escaping of plain values elided). -/
def jsonNameHead (i : ElementInfo) : String :=
  "\x7b\"tag\":\"" ++ i.tag ++ "\",\"role\":\"" ++ i.role ++ "\",\"name\":\""

/-- `JSON.stringify` of a tag/role/name record. -/
def jsonStringifyInfo (i : ElementInfo) : String :=
  jsonNameHead i ++ i.name ++ "\"\x7d"

/-- `getFormattedFocusedElementInfo` (src/utils/a11-helpers.ts lines
184-187): `JSON.stringify` of the focused element info (`"null"` when no
element is focused). -/
def getFormattedFocusedElementInfo (doc : Document) : String :=
  match getFocusedElementInfo doc with
  | none => "null"
  | some elementInfo => jsonStringifyInfo elementInfo

/-- `logFocusedElement` (src/utils/a11-helpers.ts lines 166-179), modelled
as the line it prints: "No focused element" when nothing is focused, else
the tag, role, and name truncated by `truncateText` at its default 100. -/
def logFocusedElement (doc : Document) : String :=
  match getFocusedElementInfo doc with
  | none => "No focused element"
  | some focusedInfo =>
    "Current focus: " ++ jsonStringifyInfo
      { tag := focusedInfo.tag, role := focusedInfo.role,
        name := truncateText (some focusedInfo.name) 100 }

/-- The page as `tabToElement` observes it: `docAfter n` is the document
snapshot after `n` Tab presses, and `attachedAfter n` says whether the
target locator's `waitFor` succeeds at that point. -/
structure Page where
  docAfter : Nat → Document
  attachedAfter : Nat → Bool

/-- The observable operations of one `tabToElement` iteration: the Tab
keypress, the fixed wait, the focus assertion, and (when enabled) the
intermediate log line. -/
inductive TEvent where
  | pressTab
  | wait (ms : Nat)
  | check
  | logFocused (line : String)
deriving DecidableEq

/-- The exhaustion message of `tabToElement`
(src/utils/a11-helpers.ts lines 76-79), built over the document state
`doc` that `getFormattedFocusedElementInfo` reads. -/
def exhaustMessage (role : String) (name : ExpectedName) (maxTabs : Nat)
    (doc : Document) : String :=
  "Failed to reach element with role \"" ++ role ++ "\" and name \"" ++
    name.display ++ "\" " ++ "after " ++ toString maxTabs ++
    " Tab presses. Focused element: " ++ getFormattedFocusedElementInfo doc

/-- The body of `tabToElement`'s `for` loop (src/utils/a11-helpers.ts
lines 60-74), by recursion on the remaining iteration count; `pressed`
counts the Tab presses made so far.  Each iteration presses Tab, waits,
and re-runs the focus assertion; it returns on success and otherwise
(after the optional intermediate log) continues.  When the count runs out
the exhaustion error is thrown over the final document state. -/
def tabToElementAux (page : Page) (role : String) (name : ExpectedName)
    (logIntermediateElements : Bool) (waitBetweenTabsMs : Nat) (maxTabs : Nat)
    (pressed : Nat) : Nat → Except String Unit × List TEvent
  | 0 => (Except.error (exhaustMessage role name maxTabs (page.docAfter pressed)), [])
  | remaining + 1 =>
    let pre : List TEvent :=
      [TEvent.pressTab, TEvent.wait waitBetweenTabsMs, TEvent.check]
    match (assertElementFocused (page.attachedAfter (pressed + 1))
        (page.docAfter (pressed + 1)) role name).1 with
    | Except.ok _ => (Except.ok (), pre)
    | Except.error _ =>
      let logEvents : List TEvent :=
        if logIntermediateElements then
          [TEvent.logFocused (logFocusedElement (page.docAfter (pressed + 1)))]
        else []
      let rest := tabToElementAux page role name logIntermediateElements
        waitBetweenTabsMs maxTabs (pressed + 1) remaining
      (rest.1, pre ++ logEvents ++ rest.2)

/-- `tabToElement` (src/utils/a11-helpers.ts lines 59-79), with every
parameter explicit. -/
def tabToElement (page : Page) (role : String) (name : ExpectedName)
    (maxTabs : Nat) (logIntermediateElements : Bool) (waitBetweenTabsMs : Nat) :
    Except String Unit × List TEvent :=
  tabToElementAux page role name logIntermediateElements waitBetweenTabsMs maxTabs 0 maxTabs

/-- A call of `tabToElement` that omits the optional arguments: the source
declares `maxTabs = 15`, `logIntermediateElements = false`, and
`waitBetweenTabsMs = WAIT_BETWEEN_TABS_MS` as the defaults. -/
def tabToElementDefault (page : Page) (role : String) (name : ExpectedName) :
    Except String Unit × List TEvent :=
  tabToElement page role name 15 false WAIT_BETWEEN_TABS_MS

/-- Whether the `i`-th loop iteration's focus assertion (run after `i + 1`
Tab presses) succeeds. -/
def attemptOk (page : Page) (role : String) (name : ExpectedName) (i : Nat) : Bool :=
  match (assertElementFocused (page.attachedAfter (i + 1))
      (page.docAfter (i + 1)) role name).1 with
  | Except.ok _ => true
  | Except.error _ => false

/-- The events of one iteration of the loop, logging disabled. -/
def iterEvents (waitMs : Nat) : List TEvent :=
  [TEvent.pressTab, TEvent.wait waitMs, TEvent.check]

/-- The event trace of `k` completed iterations, logging disabled. -/
def iterTrace (waitMs k : Nat) : List TEvent :=
  (List.replicate k (iterEvents waitMs)).flatten

/-- The specification's view of "the element has a non-empty attribute". -/
def attrNonEmpty (el : Element) (attrName : String) : Bool :=
  match getAttribute el attrName with
  | some s => !(s == "")
  | none => false

/-- The attribute's value, defaulting to `""`. -/
def attrValue (el : Element) (attrName : String) : String :=
  (getAttribute el attrName).getD ""

/-- The element's trimmed text content, with a null text content read as
`""`. -/
def trimmedText (el : Element) : String :=
  (el.textContent.map jsTrim).getD ""

/-- The fixed lowercase-tag-name-to-role lookup exactly as the
specification enumerates it. -/
def specImplicitRole (tag : String) : String :=
  if tag = "a" then "link"
  else if tag = "button" then "button"
  else if tag = "input" then "textbox"
  else if tag = "textarea" then "textbox"
  else if tag = "select" then "combobox"
  else if tag = "header" then "banner"
  else if tag = "footer" then "contentinfo"
  else if tag = "main" then "main"
  else if tag = "nav" then "navigation"
  else if tag = "section" then "region"
  else if tag = "table" then "table"
  else if tag = "tr" then "row"
  else if tag = "td" then "cell"
  else if tag = "th" then "columnheader"
  else "No role"

/-- The accessible-name precedence as the specification states it, amended
in its first step: the `aria-labelledby` branch applies when that
attribute is present and non-empty (a present-but-empty attribute falls
through to the fallback chain). -/
def specAccessibleName (doc : Document) (el : Element) : String :=
  if attrNonEmpty el "aria-labelledby" then
    labelledByName doc (attrValue el "aria-labelledby")
  else if attrNonEmpty el "aria-label" then attrValue el "aria-label"
  else if !(trimmedText el == "") then trimmedText el
  else if attrNonEmpty el "title" then attrValue el "title"
  else if attrNonEmpty el "placeholder" then attrValue el "placeholder"
  else "No name"

/-- The specification's success condition for the focus assertion: the
focused element's computed role equals the expected role, and its
computed name matches the expected name — string equality for a literal,
the pattern's test applied to the name for a pattern. -/
def roleNameMatchProp (info : ElementInfo) (expectedRole : String)
    (expectedName : ExpectedName) : Prop :=
  info.role = expectedRole ∧
    (match expectedName with
     | ExpectedName.str s => info.name = s
     | ExpectedName.regexp _ t => t info.name = true)

/-- A focused button whose `aria-labelledby` attribute is present but
empty, while `aria-label` is set. -/
def elC1 : Element :=
  { tagName := "BUTTON", attrs := [("aria-labelledby", ""), ("aria-label", "Save")],
    textContent := none }

/-- Document focusing `elC1`. -/
def docC1 : Document := { activeElement := some elC1, elemsById := [] }

/-- A focused anchor with only a `title` attribute and blank text. -/
def elW1 : Element :=
  { tagName := "A", attrs := [("title", "Home")], textContent := some "  " }

/-- Document focusing `elW1`. -/
def docW1 : Document := { activeElement := some elW1, elemsById := [] }

/-- A focused input whose `aria-labelledby` attribute is present but
empty, while `title` is set. -/
def elC9 : Element :=
  { tagName := "INPUT", attrs := [("aria-labelledby", ""), ("title", "Hello")],
    textContent := none }

/-- Document focusing `elC9`. -/
def docC9 : Document := { activeElement := some elC9, elemsById := [] }

/-- A focused input with a non-empty `aria-labelledby` whose id does not
resolve, and an `aria-label` that the labelledby branch must ignore. -/
def elW9 : Element :=
  { tagName := "INPUT", attrs := [("aria-labelledby", "missing"), ("aria-label", "Ignored")],
    textContent := none }

/-- Document focusing `elW9`; its id table is empty, so `missing` does not
resolve. -/
def docW9 : Document := { activeElement := some elW9, elemsById := [] }

/-- A focused button named "OK". -/
def elW3 : Element :=
  { tagName := "BUTTON", attrs := [("aria-label", "OK")], textContent := none }

/-- Document focusing `elW3`. -/
def docW3 : Document := { activeElement := some elW3, elemsById := [] }

/-- The info computed for `docW3`. -/
def infoW3 : ElementInfo := { tag := "button", role := "button", name := "OK" }

/-- A document focusing a button named "Go". -/
def docW4hit : Document :=
  { activeElement := some { tagName := "BUTTON", attrs := [("aria-label", "Go")],
                            textContent := none },
    elemsById := [] }

/-- A document focusing a button named "Elsewhere". -/
def docW4miss : Document :=
  { activeElement := some { tagName := "BUTTON", attrs := [("aria-label", "Elsewhere")],
                            textContent := none },
    elemsById := [] }

/-- A page on which the target button "Go" is focused only after exactly
three Tab presses. -/
def pageW4 : Page :=
  { docAfter := fun n => if n = 3 then docW4hit else docW4miss,
    attachedAfter := fun _ => true }

/-- A 200-character accessible name. -/
def longName200 : String := String.mk (List.replicate 200 'a')

/-- A focused button whose accessible name is `longName200`. -/
def elC5 : Element :=
  { tagName := "BUTTON", attrs := [("aria-label", longName200)], textContent := none }

/-- Document focusing `elC5`. -/
def docC5 : Document := { activeElement := some elC5, elemsById := [] }

/-- The info computed for `docC5`. -/
def infoC5 : ElementInfo := { tag := "button", role := "button", name := longName200 }

/-- A page that never attaches the target and always focuses `elC5`. -/
def pageC5 : Page :=
  { docAfter := fun _ => docC5, attachedAfter := fun _ => false }

/-- A focused textarea named "Notes". -/
def elW5 : Element :=
  { tagName := "TEXTAREA", attrs := [("aria-label", "Notes")], textContent := none }

/-- Document focusing `elW5`. -/
def docW5 : Document := { activeElement := some elW5, elemsById := [] }

/-- The info computed for `docW5`. -/
def infoW5 : ElementInfo := { tag := "textarea", role := "textbox", name := "Notes" }

/-- A 150-character accessible name. -/
def longName150 : String := String.mk (List.replicate 150 'c')

/-- A focused link whose accessible name is `longName150`. -/
def elW6 : Element :=
  { tagName := "A", attrs := [("aria-label", longName150)], textContent := none }

/-- Document focusing `elW6`. -/
def docW6 : Document := { activeElement := some elW6, elemsById := [] }

/-- The info computed for `docW6`. -/
def infoW6 : ElementInfo := { tag := "a", role := "link", name := longName150 }

/-- A 201-character accessible name. -/
def longName201 : String := String.mk (List.replicate 201 'b')

/-- A focused button whose accessible name is `longName201`. -/
def elC8 : Element :=
  { tagName := "BUTTON", attrs := [("aria-label", longName201)], textContent := none }

/-- Document focusing `elC8`. -/
def docC8 : Document := { activeElement := some elC8, elemsById := [] }

/-- A document focusing a button named "End". -/
def docC10hit : Document :=
  { activeElement := some { tagName := "BUTTON", attrs := [("aria-label", "End")],
                            textContent := none },
    elemsById := [] }

/-- A document focusing a button named "Middle". -/
def docC10miss : Document :=
  { activeElement := some { tagName := "BUTTON", attrs := [("aria-label", "Middle")],
                            textContent := none },
    elemsById := [] }

/-- A page on which the target button "End" is focused only from the 13th
Tab press on: reachable within 15 presses but not within 10. -/
def pageC10 : Page :=
  { docAfter := fun n => if 13 ≤ n then docC10hit else docC10miss,
    attachedAfter := fun _ => true }

/-- The record lookup `tagRoleMap[tag] || "No role"` agrees with the
specification's enumerated table. -/
theorem lookupTagRole_eq_spec (tag : String) :
    jsOr (lookupTagRole tag) "No role" = specImplicitRole tag := by
  by_cases h1 : tag = "a"
  · subst h1; rfl
  by_cases h2 : tag = "button"
  · subst h2; rfl
  by_cases h3 : tag = "input"
  · subst h3; rfl
  by_cases h4 : tag = "textarea"
  · subst h4; rfl
  by_cases h5 : tag = "select"
  · subst h5; rfl
  by_cases h6 : tag = "header"
  · subst h6; rfl
  by_cases h7 : tag = "footer"
  · subst h7; rfl
  by_cases h8 : tag = "main"
  · subst h8; rfl
  by_cases h9 : tag = "nav"
  · subst h9; rfl
  by_cases h10 : tag = "section"
  · subst h10; rfl
  by_cases h11 : tag = "table"
  · subst h11; rfl
  by_cases h12 : tag = "tr"
  · subst h12; rfl
  by_cases h13 : tag = "td"
  · subst h13; rfl
  by_cases h14 : tag = "th"
  · subst h14; rfl
  have hnone : lookupTagRole tag = none := by
    unfold lookupTagRole tagRoleMap
    simp [List.find?_eq_none, h1, h2, h3, h4, h5, h6, h7,
      h8, h9, h10, h11, h12, h13, h14]
  rw [hnone]
  simp [specImplicitRole, jsOr, h1, h2, h3, h4, h5, h6, h7,
    h8, h9, h10, h11, h12, h13, h14]

/-- The source's accessible-name computation agrees with the
specification's (amended) precedence chain. -/
theorem computeAccessibleName_eq_spec (doc : Document) (el : Element) :
    computeAccessibleName doc el = specAccessibleName doc el := by
  unfold computeAccessibleName specAccessibleName fallbackAccessibleName
    attrNonEmpty attrValue trimmedText truthy jsOr
  cases hlb : getAttribute el "aria-labelledby" <;>
    cases hal : getAttribute el "aria-label" <;>
      cases hti : getAttribute el "title" <;>
        cases hpl : getAttribute el "placeholder" <;>
          cases htc : el.textContent <;>
            simp [hlb, hal, hti, hpl, htc]

/-- The source's name comparison, written as the specification reads:
string equality for a literal, the pattern's test applied to the name for
a pattern (the source's `name || ""` guard is the identity here, since
the computed name is always a string). -/
theorem nameMatches_iff (expectedName : ExpectedName) (nm : String) :
    nameMatches expectedName nm = true ↔
      (match expectedName with
       | ExpectedName.str s => nm = s
       | ExpectedName.regexp _ t => t nm = true) := by
  cases expectedName with
  | str s => simp [nameMatches]
  | regexp src t =>
    unfold nameMatches jsOrS
    by_cases h : nm = "" <;> simp [h]

/-- C1 (amended): for every focused element the computed accessible name
follows the precedence chain `specAccessibleName`: the space-joined
resolved trimmed texts when `aria-labelledby` is present and non-empty,
else `aria-label` if non-empty, else the trimmed text content if
non-empty, else `title` if non-empty, else `placeholder` if non-empty,
else the sentinel "No name". -/
theorem C1_name_precedence (doc : Document) (el : Element)
    (h : doc.activeElement = some el) :
    (getFocusedElementInfo doc).map ElementInfo.name =
      some (specAccessibleName doc el) := by
  simp [getFocusedElementInfo, h, computeAccessibleName_eq_spec]

/-- Witness for C1: the precedence chain evaluated on a concrete focused
anchor whose text content trims to empty and whose `title` is "Home". -/
theorem C1_witness :
    (getFocusedElementInfo docW1).map ElementInfo.name =
      some (specAccessibleName docW1 elW1) :=
  C1_name_precedence docW1 elW1 rfl

/-- C1 counterexample: an element that HAS an `aria-labelledby` attribute
(present but empty) does not take its name from the referenced elements:
the code treats the empty attribute as absent and falls through to
`aria-label`, giving "Save" where the claim requires the labelledby join
(which is empty here). -/
theorem C1_counterexample :
    getAttribute elC1 "aria-labelledby" = some "" ∧
    (getFocusedElementInfo docC1).map ElementInfo.name = some "Save" ∧
    labelledByName docC1 "" = "" ∧ ("Save" : String) ≠ "" := by decide

/-- C2: for every element, the computed accessible role is the explicit
`role` attribute when present and non-empty, otherwise the fixed
lowercase-tag-name-to-role table entry as the specification enumerates
it, otherwise "No role". -/
theorem C2_computed_role (el : Element) :
    getComputedAriaRole (some el) =
      if attrNonEmpty el "role" then attrValue el "role"
      else specImplicitRole (jsToLower el.tagName) := by
  unfold getComputedAriaRole attrNonEmpty attrValue truthy
  cases hr : getAttribute el "role" with
  | none => simp [hr, lookupTagRole_eq_spec]
  | some s => by_cases hs : s = "" <;> simp [hr, hs, lookupTagRole_eq_spec]

/-- C9 (amended): when the focused element's `aria-labelledby` attribute
is present and non-empty, the computed accessible name is exactly the
labelledby resolution, whatever the element's other attributes and text
are — even when nothing resolves and the result is the empty string, the
fallback chain and the "No name" sentinel are not consulted. -/
theorem C9_labelledby_exclusive (doc : Document) (el : Element) (ids : String)
    (hact : doc.activeElement = some el)
    (hattr : getAttribute el "aria-labelledby" = some ids)
    (hne : ids ≠ "") :
    (getFocusedElementInfo doc).map ElementInfo.name =
      some (labelledByName doc ids) := by
  simp [getFocusedElementInfo, hact, computeAccessibleName, hattr, truthy, hne]

/-- Witness for C9: a concrete element whose `aria-labelledby` id does not
resolve and whose `aria-label` is set; the computed name is still the
(empty) labelledby join, not the `aria-label`. -/
theorem C9_witness :
    (getFocusedElementInfo docW9).map ElementInfo.name =
      some (labelledByName docW9 "missing") :=
  C9_labelledby_exclusive docW9 elW9 "missing" rfl rfl (by decide)

/-- C9 counterexample: for an element that HAS an `aria-labelledby`
attribute (present but empty) the code does consult the fallbacks: the
computed name is the `title` value "Hello", not the labelledby join
(which is empty here). -/
theorem C9_counterexample :
    getAttribute elC9 "aria-labelledby" = some "" ∧
    (getFocusedElementInfo docC9).map ElementInfo.name = some "Hello" ∧
    labelledByName docC9 "" = "" ∧ ("Hello" : String) ≠ "" := by decide

/-- C3: when the target attaches and some element is focused,
`assertElementFocused` returns normally exactly when the focused
element's computed role equals the expected role and its computed name
matches the expected name (string equality for a literal, pattern test
for a pattern); on mismatch it raises the error naming the expected
role/name and the actually focused role/(shortened) name. -/
theorem C3_assert_focused_iff (doc : Document) (expectedRole : String)
    (expectedName : ExpectedName) (info : ElementInfo)
    (hfocus : getFocusedElementInfo doc = some info) :
    ((assertElementFocused true doc expectedRole expectedName).1 = Except.ok () ↔
      roleNameMatchProp info expectedRole expectedName) ∧
    (¬ roleNameMatchProp info expectedRole expectedName →
      (assertElementFocused true doc expectedRole expectedName).1 =
        Except.error (mismatchMessage expectedRole expectedName info.role
          (shortNameOf info.name))) := by
  have hbool : (info.role == expectedRole && nameMatches expectedName info.name) = true ↔
      roleNameMatchProp info expectedRole expectedName := by
    unfold roleNameMatchProp
    rw [Bool.and_eq_true, beq_iff_eq, nameMatches_iff]
  by_cases hc : (info.role == expectedRole && nameMatches expectedName info.name) = true
  · have hp := hbool.mp hc
    have hr := Bool.and_eq_true .. |>.mp hc
    exact ⟨by simp [assertElementFocused, hfocus, hr.1, hr.2, hp],
           fun hnp => absurd hp hnp⟩
  · have hnp : ¬ roleNameMatchProp info expectedRole expectedName :=
      fun hp => hc (hbool.mpr hp)
    constructor
    · constructor
      · intro hok
        exfalso
        simp [assertElementFocused, hfocus, hc] at hok
      · intro hp; exact absurd hp hnp
    · intro _
      simp [assertElementFocused, hfocus, hc]

/-- Witness for C3: the assertion evaluated on a concrete focused button
named "OK" against the expectation role "button", name "OK". -/
theorem C3_witness :
    ((assertElementFocused true docW3 "button" (ExpectedName.str "OK")).1 = Except.ok () ↔
      roleNameMatchProp infoW3 "button" (ExpectedName.str "OK")) ∧
    (¬ roleNameMatchProp infoW3 "button" (ExpectedName.str "OK") →
      (assertElementFocused true docW3 "button" (ExpectedName.str "OK")).1 =
        Except.error (mismatchMessage "button" (ExpectedName.str "OK") infoW3.role
          (shortNameOf infoW3.name))) :=
  C3_assert_focused_iff docW3 "button" (ExpectedName.str "OK") infoW3 (by decide)

/-- C7: when the target does not attach within the wait,
`assertElementFocused` raises the "not found on page" error and its trace
holds no focus query; the focus query (and with it the comparison) is
reached exactly when the target has attached. -/
theorem C7_not_attached (doc : Document) (expectedRole : String)
    (expectedName : ExpectedName) :
    assertElementFocused false doc expectedRole expectedName =
      (Except.error (notFoundMessage expectedRole expectedName),
       [AEvent.waitForAttached]) ∧
    AEvent.queryFocused ∉ (assertElementFocused false doc expectedRole expectedName).2 ∧
    (∀ d : Document,
      AEvent.queryFocused ∈ (assertElementFocused true d expectedRole expectedName).2) := by
  refine ⟨rfl, by simp [assertElementFocused], ?_⟩
  intro d
  unfold assertElementFocused
  cases hf : getFocusedElementInfo d <;> simp [hf]
  split <;> simp

/-- One more completed iteration prepends one press/wait/check block. -/
theorem iterTrace_succ (waitMs k : Nat) :
    iterTrace waitMs (k + 1) = iterEvents waitMs ++ iterTrace waitMs k := by
  simp [iterTrace, List.replicate_succ]

/-- When every remaining iteration's assertion fails, the loop exhausts its
fuel: it performs exactly one press/wait/check block per remaining
iteration and ends in the exhaustion error over the final document. -/
theorem tabAux_exhaust (page : Page) (role : String) (name : ExpectedName)
    (waitMs maxTabs : Nat) :
    ∀ (fuel pressed : Nat),
      (∀ k, k < fuel → attemptOk page role name (pressed + k) = false) →
      tabToElementAux page role name false waitMs maxTabs pressed fuel =
        (Except.error (exhaustMessage role name maxTabs (page.docAfter (pressed + fuel))),
         iterTrace waitMs fuel) := by
  intro fuel
  induction fuel with
  | zero =>
    intro pressed _
    simp [tabToElementAux, iterTrace]
  | succ n ih =>
    intro pressed h
    have h0 : attemptOk page role name (pressed + 0) = false := h 0 (Nat.succ_pos n)
    rw [Nat.add_zero] at h0
    unfold tabToElementAux
    cases hres : (assertElementFocused (page.attachedAfter (pressed + 1))
        (page.docAfter (pressed + 1)) role name).1 with
    | ok u =>
      rw [attemptOk, hres] at h0
      exact absurd h0 (by simp)
    | error msg =>
      have ih' := ih (pressed + 1) (fun k hk => by
        have hk' := h (k + 1) (Nat.succ_lt_succ hk)
        rwa [show pressed + (k + 1) = pressed + 1 + k from by omega] at hk')
      rw [ih']
      have hadd : pressed + 1 + n = pressed + (n + 1) := by omega
      rw [hadd, iterTrace_succ]
      simp [iterEvents]

/-- When the `i`-th remaining iteration is the first whose assertion
succeeds, the loop returns normally after exactly `i + 1` press/wait/check
blocks. -/
theorem tabAux_success (page : Page) (role : String) (name : ExpectedName)
    (waitMs maxTabs : Nat) :
    ∀ (fuel pressed i : Nat), i < fuel →
      attemptOk page role name (pressed + i) = true →
      (∀ j, j < i → attemptOk page role name (pressed + j) = false) →
      tabToElementAux page role name false waitMs maxTabs pressed fuel =
        (Except.ok (), iterTrace waitMs (i + 1)) := by
  intro fuel
  induction fuel with
  | zero =>
    intro pressed i hi
    exact absurd hi (Nat.not_lt_zero i)
  | succ n ih =>
    intro pressed i hi hsucc hprev
    cases i with
    | zero =>
      rw [Nat.add_zero] at hsucc
      unfold tabToElementAux
      cases hres : (assertElementFocused (page.attachedAfter (pressed + 1))
          (page.docAfter (pressed + 1)) role name).1 with
      | ok u =>
        simp [iterTrace, iterEvents]
      | error msg =>
        rw [attemptOk, hres] at hsucc
        exact absurd hsucc (by simp)
    | succ i' =>
      have h0 : attemptOk page role name (pressed + 0) = false := hprev 0 (Nat.succ_pos i')
      rw [Nat.add_zero] at h0
      unfold tabToElementAux
      cases hres : (assertElementFocused (page.attachedAfter (pressed + 1))
          (page.docAfter (pressed + 1)) role name).1 with
      | ok u =>
        rw [attemptOk, hres] at h0
        exact absurd h0 (by simp)
      | error msg =>
        have ih' := ih (pressed + 1) i' (Nat.lt_of_succ_lt_succ hi)
          (by rwa [show pressed + 1 + i' = pressed + (i' + 1) from by omega])
          (fun j hj => by
            have hj' := hprev (j + 1) (Nat.succ_lt_succ hj)
            rwa [show pressed + (j + 1) = pressed + 1 + j from by omega] at hj')
        rw [ih']
        simp [iterTrace_succ, iterEvents]

/-- C4: the `tabToElement` loop runs at most `maxTabs` iterations, each
performing exactly one Tab press, one fixed wait, and one focus
re-check (the `iterTrace` blocks); it returns normally on the first
iteration whose assertion succeeds (after `i + 1 ≤ maxTabs` presses), and
when no iteration succeeds it raises the exhaustion error after exactly
`maxTabs` presses.  The loop is a total function of `maxTabs`, so it
terminates for every bound. -/
theorem C4_tab_loop (page : Page) (role : String) (name : ExpectedName)
    (waitMs maxTabs : Nat) :
    (∀ i, i < maxTabs → attemptOk page role name i = true →
      (∀ j, j < i → attemptOk page role name j = false) →
      tabToElement page role name maxTabs false waitMs =
        (Except.ok (), iterTrace waitMs (i + 1)) ∧ i + 1 ≤ maxTabs) ∧
    ((∀ i, i < maxTabs → attemptOk page role name i = false) →
      tabToElement page role name maxTabs false waitMs =
        (Except.error (exhaustMessage role name maxTabs (page.docAfter maxTabs)),
         iterTrace waitMs maxTabs)) := by
  constructor
  · intro i hi hs hp
    refine ⟨?_, hi⟩
    unfold tabToElement
    exact tabAux_success page role name waitMs maxTabs maxTabs 0 i hi
      (by rwa [Nat.zero_add]) (fun j hj => by rw [Nat.zero_add]; exact hp j hj)
  · intro hall
    unfold tabToElement
    have h := tabAux_exhaust page role name waitMs maxTabs maxTabs 0
      (fun k hk => by rw [Nat.zero_add]; exact hall k hk)
    rwa [Nat.zero_add] at h

/-- Witness for C4: on a page whose target is focused after the third Tab
press, the loop with bound 15 succeeds after exactly three
press/wait/check blocks. -/
theorem C4_witness :
    tabToElement pageW4 "button" (ExpectedName.str "Go") 15 false 200 =
      (Except.ok (), iterTrace 200 (2 + 1)) ∧ 2 + 1 ≤ 15 :=
  (C4_tab_loop pageW4 "button" (ExpectedName.str "Go") 200 15).1 2 (by decide)
    (by decide) (by decide)

/-- C5 (amended): the exhaustion error of `tabToElement` reports the
last-focused element's info as plain `JSON.stringify` output — the
focused element's name is embedded verbatim, with no truncation,
whatever its length. -/
theorem C5_exhaust_name_verbatim (role : String) (name : ExpectedName)
    (maxTabs : Nat) (doc : Document) (i : ElementInfo)
    (h : getFocusedElementInfo doc = some i) :
    exhaustMessage role name maxTabs doc =
      ("Failed to reach element with role \"" ++ role ++ "\" and name \"" ++
          name.display ++ "\" " ++ "after " ++ toString maxTabs ++
          " Tab presses. Focused element: " ++ jsonNameHead i) ++
        i.name ++ "\"\x7d" := by
  simp [exhaustMessage, getFormattedFocusedElementInfo, h, jsonStringifyInfo,
    String.append_assoc]

/-- Witness for C5 (amended): the exhaustion message over a concrete
focused textarea named "Notes". -/
theorem C5_witness :
    exhaustMessage "button" (ExpectedName.str "Send") 15 docW5 =
      ("Failed to reach element with role \"" ++ "button" ++ "\" and name \"" ++
          (ExpectedName.str "Send").display ++ "\" " ++ "after " ++ toString 15 ++
          " Tab presses. Focused element: " ++ jsonNameHead infoW5) ++
        infoW5.name ++ "\"\x7d" :=
  C5_exhaust_name_verbatim "button" (ExpectedName.str "Send") 15 docW5 infoW5 (by decide)

set_option maxRecDepth 8192 in
/-- C5 counterexample: a run that exhausts its two Tab presses while a
button with a 200-character accessible name is focused — the error
message embeds all 200 characters of the name, not at most 100. -/
theorem C5_counterexample :
    getFocusedElementInfo docC5 = some infoC5 ∧
    (tabToElement pageC5 "button" (ExpectedName.str "Go") 2 false 0).1 =
      Except.error
        ("Failed to reach element with role \"button\" and name \"Go\" after 2 Tab presses. Focused element: "
          ++ jsonNameHead infoC5 ++ longName200 ++ "\"\x7d") ∧
    100 < longName200.length := by
  refine ⟨by decide, by decide, by decide⟩

/-- C6: `logFocusedElement` prints the focused element's tag and role
unchanged and its name through `truncateText`: a name of at most 100
characters prints as itself; a longer name prints as its first 97
characters followed by "..." — exactly 100 characters; a null or empty
name prints as the empty string; and with no focused element the line is
"No focused element". -/
theorem C6_log_truncation (doc : Document) (i : ElementInfo)
    (h : getFocusedElementInfo doc = some i) :
    logFocusedElement doc =
      ("Current focus: " ++
        jsonNameHead { tag := i.tag, role := i.role,
                       name := truncateText (some i.name) 100 }) ++
        truncateText (some i.name) 100 ++ "\"\x7d" ∧
    (i.name.length ≤ 100 → truncateText (some i.name) 100 = i.name) ∧
    (100 < i.name.length →
      truncateText (some i.name) 100 = jsSubstringTo i.name 97 ++ "..." ∧
      (truncateText (some i.name) 100).length = 100) ∧
    truncateText (some "") 100 = "" ∧ truncateText none 100 = "" ∧
    (∀ d : Document, getFocusedElementInfo d = none →
      logFocusedElement d = "No focused element") := by
  refine ⟨?_, ?_, ?_, rfl, rfl, ?_⟩
  · simp [logFocusedElement, h, jsonStringifyInfo, String.append_assoc]
  · intro hle
    unfold truncateText truthy
    by_cases h0 : i.name = ""
    · simp [h0]
    · have hngt : ¬ (i.name.length > 100) := by omega
      simp [h0, hngt]
  · intro hgt
    have hne : i.name ≠ "" := by
      intro h0
      rw [h0] at hgt
      simp [String.length] at hgt
    refine ⟨by unfold truncateText truthy; simp [hne, hgt], ?_⟩
    unfold truncateText truthy
    simp [hne, hgt]
    have hd : i.name.data.length = i.name.length := rfl
    have h1 : (jsSubstringTo i.name 97).length = 97 := by
      simp [jsSubstringTo, String.length_mk, List.length_take, hd]
      omega
    have h2 : ("..." : String).length = 3 := rfl
    rw [h1, h2]
  · intro d hd
    simp [logFocusedElement, hd]

/-- Witness for C6: the log line over a concrete focused link with a
150-character accessible name. -/
theorem C6_witness :
    logFocusedElement docW6 =
      ("Current focus: " ++
        jsonNameHead { tag := infoW6.tag, role := infoW6.role,
                       name := truncateText (some infoW6.name) 100 }) ++
        truncateText (some infoW6.name) 100 ++ "\"\x7d" ∧
    (infoW6.name.length ≤ 100 → truncateText (some infoW6.name) 100 = infoW6.name) ∧
    (100 < infoW6.name.length →
      truncateText (some infoW6.name) 100 = jsSubstringTo infoW6.name 97 ++ "..." ∧
      (truncateText (some infoW6.name) 100).length = 100) ∧
    truncateText (some "") 100 = "" ∧ truncateText none 100 = "" ∧
    (∀ d : Document, getFocusedElementInfo d = none →
      logFocusedElement d = "No focused element") :=
  C6_log_truncation docW6 infoW6 (by decide)

set_option maxRecDepth 8192 in
/-- C8: evaluation at the failing input — a focused button whose
accessible name has 201 characters, against a non-matching expectation.
The mismatch error embeds `name.slice(97) + "..."`: the LAST 104
characters of the name followed by an ellipsis, 107 characters in total,
exceeding the claimed 100-character bound (the shortening claimed — and
implemented by the sibling `truncateText` — would be
`substring(0, 97) + "..."`). -/
theorem C8_shortname_eval :
    (assertElementFocused true docC8 "button" (ExpectedName.str "Go")).1 =
      Except.error (mismatchMessage "button" (ExpectedName.str "Go") "button"
        (shortNameOf longName201)) ∧
    shortNameOf longName201 = jsSliceFrom longName201 97 ++ "..." ∧
    (shortNameOf longName201).length = 107 ∧
    ¬ (shortNameOf longName201).length ≤ 100 := by
  refine ⟨by decide, by decide, by decide, by decide⟩

/-- C10: a call of `tabToElement` that omits the optional arguments is the
same call as one passing `maxTabs = 15` — the source's declared default —
and the bound really is 15, not the 10 the documentation comment states:
on a page whose target is reached on the 13th Tab press the defaulted
call succeeds, while a bound of 10 exhausts and fails. -/
theorem C10_default_fifteen :
    (∀ (page : Page) (role : String) (name : ExpectedName),
      tabToElementDefault page role name =
        tabToElement page role name 15 false WAIT_BETWEEN_TABS_MS) ∧
    (tabToElementDefault pageC10 "button" (ExpectedName.str "End")).1 = Except.ok () ∧
    (tabToElement pageC10 "button" (ExpectedName.str "End") 10 false
        WAIT_BETWEEN_TABS_MS).1 =
      Except.error (exhaustMessage "button" (ExpectedName.str "End") 10 docC10miss) := by
  refine ⟨fun _ _ _ => rfl, by decide, by decide⟩
